import Mathlib

/-!
Verification development for the manus-machina multi-agent orchestration
library.  Each Python module relevant to the checked claims is shallowly
embedded as executable Lean definitions: stateful classes become explicit
state-passing functions, wall-clock timestamps become rational-number
parameters supplied by the caller, raised exceptions become `Except` /
`Option` results, and Python dictionaries become association lists.
-/

/-! ## Association-list model of Python dictionaries -/

/-- Dictionary lookup: first binding of the key, if any (Python `d.get(k)` /
`k in d`). -/
def mapLookup {V : Type} : List (String × V) → String → Option V
  | [], _ => none
  | (k, v) :: rest, key => if k = key then some v else mapLookup rest key

/-- Dictionary assignment `d[k] = v`: replaces the existing binding in place,
or appends a new one (insertion order preserved, as for Python dicts). -/
def mapSet {V : Type} : List (String × V) → String → V → List (String × V)
  | [], key, val => [(key, val)]
  | (k, v) :: rest, key, val =>
    if k = key then (key, val) :: rest else (k, v) :: mapSet rest key val

/-! ## Circuit breaker (src/manus_machina/resilience/circuit_breaker.py)

Wall-clock instants (`datetime.utcnow()`) are modelled as rationals supplied
by the caller of `CircuitBreaker.call`; `timedelta(seconds=t)` comparisons
become rational comparisons.  The wrapped function's behaviour is supplied
as an `Except E V` outcome that is consumed only when the breaker actually
invokes the function; the returned `Bool` records whether it was invoked. -/

/-- The three breaker states (`CircuitState`); `opened` models the source's
`OPEN` value (`open` is a Lean keyword) and `halfOpen` models `HALF_OPEN`. -/
inductive CircuitState where
  | closed
  | opened
  | halfOpen
deriving DecidableEq, Repr

/-- `CircuitBreakerConfig` (the `expected_exceptions` field keeps its default
`(Exception,)`, i.e. every failure outcome counts). -/
structure CircuitBreakerConfig where
  failure_threshold : Nat
  success_threshold : Nat
  timeout_seconds : ℚ

/-- Mutable fields of a `CircuitBreaker` instance. -/
structure CircuitBreakerState where
  state : CircuitState
  failure_count : Nat
  success_count : Nat
  last_failure_time : Option ℚ
  last_state_change : ℚ
  total_calls : Nat
  total_failures : Nat
  total_successes : Nat
  total_rejected : Nat
deriving DecidableEq, Repr

/-- `CircuitBreaker._should_attempt_reset`. -/
def shouldAttemptReset (cfg : CircuitBreakerConfig) (s : CircuitBreakerState)
    (now : ℚ) : Bool :=
  match s.last_failure_time with
  | none => true
  | some t => now - t ≥ cfg.timeout_seconds

/-- `CircuitBreaker._transition_to_open`. -/
def transitionToOpen (s : CircuitBreakerState) (now : ℚ) : CircuitBreakerState :=
  { s with state := .opened, last_state_change := now, success_count := 0 }

/-- `CircuitBreaker._transition_to_half_open`. -/
def transitionToHalfOpen (s : CircuitBreakerState) (now : ℚ) : CircuitBreakerState :=
  { s with state := .halfOpen, last_state_change := now,
           failure_count := 0, success_count := 0 }

/-- `CircuitBreaker._transition_to_closed`. -/
def transitionToClosed (s : CircuitBreakerState) (now : ℚ) : CircuitBreakerState :=
  { s with state := .closed, last_state_change := now,
           failure_count := 0, success_count := 0 }

/-- `CircuitBreaker._on_success`. -/
def onSuccess (cfg : CircuitBreakerConfig) (s : CircuitBreakerState)
    (now : ℚ) : CircuitBreakerState :=
  let s1 := { s with total_successes := s.total_successes + 1,
                     failure_count := 0,
                     success_count := s.success_count + 1 }
  if s1.state = .halfOpen ∧ s1.success_count ≥ cfg.success_threshold then
    transitionToClosed s1 now
  else s1

/-- `CircuitBreaker._on_failure`. -/
def onFailure (cfg : CircuitBreakerConfig) (s : CircuitBreakerState)
    (now : ℚ) : CircuitBreakerState :=
  let s1 := { s with total_failures := s.total_failures + 1,
                     failure_count := s.failure_count + 1,
                     success_count := 0,
                     last_failure_time := some now }
  if s1.state = .closed then
    (if s1.failure_count ≥ cfg.failure_threshold then transitionToOpen s1 now else s1)
  else if s1.state = .halfOpen then transitionToOpen s1 now
  else s1

/-- What `CircuitBreaker.call` produced: a fast rejection carrying the last
failure time (the `CircuitBreakerOpenError`), the function's value, or the
function's re-raised exception. -/
inductive CBCallResult (E V : Type) where
  | rejected (lastFailure : Option ℚ)
  | success (v : V)
  | failure (e : E)
deriving DecidableEq, Repr

/-- `CircuitBreaker.call`.  Returns the updated breaker state, the call's
result, and whether the wrapped function was invoked at all. -/
def CircuitBreaker.call {E V : Type} (cfg : CircuitBreakerConfig)
    (s : CircuitBreakerState) (now : ℚ) (outcome : Except E V) :
    CircuitBreakerState × CBCallResult E V × Bool :=
  let s0 := { s with total_calls := s.total_calls + 1 }
  if s0.state = .opened ∧ ¬ shouldAttemptReset cfg s0 now then
    ({ s0 with total_rejected := s0.total_rejected + 1 },
     .rejected s0.last_failure_time, false)
  else
    let s1 := if s0.state = .opened then transitionToHalfOpen s0 now else s0
    match outcome with
    | .ok v => (onSuccess cfg s1 now, .success v, true)
    | .error e => (onFailure cfg s1 now, .failure e, true)

/-! ## Retry policy (src/manus_machina/resilience/retry.py)

Only the control flow of `RetryPolicy.execute` is modelled: the computed
backoff delays are slept away and never influence which attempt runs or
what is returned, so `_calculate_delay` / `asyncio.sleep` are elided.  The
function under retry is modelled as a map from the (1-based) attempt number
to that attempt's outcome.  The running `_total_retries` counter is threaded
explicitly starting from 0 (a fresh policy). -/

/-- `RetryConfig`, restricted to the fields that decide control flow. -/
structure RetryConfig (V : Type) where
  max_attempts : Nat
  retry_on_result : Option (V → Bool)

/-- Result of `RetryPolicy.execute`: a returned value, or the
`RetryExhaustedError` carrying the last underlying exception as cause. -/
inductive RetryOutcome (E V : Type) where
  | ok (v : V)
  | exhausted (cause : Option E)
deriving DecidableEq, Repr

/-- The `for attempt in range(1, max_attempts + 1)` loop of
`RetryPolicy.execute`; `fuel` is the number of loop iterations left
(initially `max_attempts`), `lastE` the `last_exception` variable and
`retries` the `_total_retries` counter.  Exhausting the fuel corresponds to
falling out of the loop and raising `RetryExhaustedError`. -/
def retryGo {E V : Type} (maxA : Nat) (pred : Option (V → Bool))
    (f : Nat → Except E V) :
    Nat → Nat → Option E → Nat → RetryOutcome E V × Nat
  | _, 0, lastE, retries => (.exhausted lastE, retries)
  | attempt, fuel + 1, lastE, retries =>
    match f attempt with
    | .ok v =>
      if (pred.map (fun p => p v)).getD false ∧ attempt < maxA then
        retryGo maxA pred f (attempt + 1) fuel lastE (retries + 1)
      else (.ok v, retries)
    | .error e =>
      if attempt < maxA then
        retryGo maxA pred f (attempt + 1) fuel (some e) (retries + 1)
      else (.exhausted (some e), retries)

/-- `RetryPolicy.execute` on a fresh policy: attempts start at 1 with no
recorded exception and a zero retry counter. -/
def RetryPolicy.execute {E V : Type} (cfg : RetryConfig V)
    (f : Nat → Except E V) : RetryOutcome E V × Nat :=
  retryGo cfg.max_attempts cfg.retry_on_result f 1 cfg.max_attempts none 0

/-! ## Saga (src/manus_machina/orchestration/saga.py)

The shared `self.context` dictionary is modelled as a function
`String → Option V`; a step's forward action and compensating action are
modelled as functions of the context with `Except` outcomes.  `execute`
additionally returns the list of step names whose compensating action was
invoked, in invocation order, so that compensation order is observable. -/

/-- The saga's shared context dictionary. -/
def SagaCtx (V : Type) := String → Option V

/-- `self.context[key] = value`. -/
def ctxSet {V : Type} (ctx : SagaCtx V) (key : String) (v : V) : SagaCtx V :=
  fun k => if k = key then some v else ctx k

/-- A `SagaStep`'s behavioural fields (status/result/error/timestamps are
bookkeeping recovered from the returned `SagaResult`). -/
structure SagaStep (E V : Type) where
  name : String
  action : SagaCtx V → Except E V
  compensation : SagaCtx V → Except E Unit

/-- `SagaStatus` (the values `execute` can leave behind). -/
inductive SagaStatus where
  | pending
  | running
  | completed
  | failed
  | compensating
  | compensated
deriving DecidableEq, Repr

/-- How `Saga.execute` ended: normal return of the last step's result,
`SagaFailedError` (wrapping the original forward-action exception), or
`SagaCompensationError` (wrapping the failed compensation's exception). -/
inductive SagaOutcome (E V : Type) where
  | completed (result : Option V)
  | sagaFailed (stepName : String) (cause : E)
  | compensationFailed (stepName : String) (cause : E)

/-- Observable result of `Saga.execute`: the outcome, the saga's final
`status` field, and the names of the steps whose compensating action was
invoked, in invocation order. -/
structure SagaResult (E V : Type) where
  outcome : SagaOutcome E V
  status : SagaStatus
  compTrace : List String

/-- `Saga._compensate` on an already-reversed list of completed steps:
returns the invocation trace and, if some compensation raised, the name of
that step and its exception (the walk stops there, as in the source). -/
def sagaCompensate {E V : Type} (ctx : SagaCtx V) :
    List (SagaStep E V) → List String × Option (String × E)
  | [] => ([], none)
  | s :: rest =>
    match s.compensation ctx with
    | .ok _ =>
      let r := sagaCompensate ctx rest
      (s.name :: r.1, r.2)
    | .error e => ([s.name], some (s.name, e))

/-- The step loop of `Saga.execute`.  `completedRev` is the
`completed_steps` list in reverse (so `_compensate`'s `reversed(...)` walk
is `completedRev` itself); `lastResult` is the most recent step result,
returned on full success (`self.steps[-1].result`).  On a forward failure
the completed steps are compensated; if all compensations succeed the final
status is `compensated` and a `SagaFailedError` propagates, while a failing
compensation leaves the status `failed` (set by the outer handler) and
propagates `SagaCompensationError`. -/
def sagaExecuteGo {E V : Type} (ctx : SagaCtx V)
    (completedRev : List (SagaStep E V)) (lastResult : Option V) :
    List (SagaStep E V) → SagaResult E V
  | [] => ⟨.completed lastResult, .completed, []⟩
  | s :: rest =>
    match s.action ctx with
    | .ok v =>
      sagaExecuteGo (ctxSet ctx (s.name ++ "_result") v) (s :: completedRev)
        (some v) rest
    | .error e =>
      let comp := sagaCompensate ctx completedRev
      match comp.2 with
      | none => ⟨.sagaFailed s.name e, .compensated, comp.1⟩
      | some (cn, ce) => ⟨.compensationFailed cn ce, .failed, comp.1⟩

/-- `Saga.execute` with an initial context. -/
def Saga.execute {E V : Type} (steps : List (SagaStep E V)) (ctx0 : SagaCtx V) :
    SagaResult E V :=
  sagaExecuteGo ctx0 [] none steps

/-! ## Guardrail engine (src/manus_machina/guardrails/engine.py)

A guard is its name together with its `validate` function over the content
and an opaque context value of type `C`; a guard's metadata has the opaque
type `M`.  `_run_guards` additionally returns the list of names of the
guards whose `validate` was actually invoked, in invocation order, so that
fail-fast short-circuiting is observable. -/

/-- `GuardResult` (guards/guards.py). -/
structure GuardResult (M : Type) where
  passed : Bool
  message : Option String
  metadata : M
deriving DecidableEq, Repr

/-- A registered guard: its `name` and `validate(content, context)`. -/
structure Guard (C M : Type) where
  name : String
  validate : String → C → GuardResult M

/-- `GuardrailConfig`. -/
structure GuardrailConfig where
  fail_fast : Bool
  log_violations : Bool

/-- The data carried by one `GuardrailViolation` exception. -/
structure BaseViolation (M : Type) where
  guard_name : String
  message : String
  metadata : M
deriving DecidableEq, Repr

/-- A raised `GuardrailViolation`: either a single guard's violation
(fail-fast path) or the combined error whose `guard_name` is "multiple" and
whose metadata embeds the individual violations. -/
inductive RunFailure (M : Type) where
  | violation (guard_name : String) (message : String) (metadata : M)
  | multiple (guard_name : String) (message : String)
      (violations : List (BaseViolation M))
deriving DecidableEq, Repr

/-- The loop of `GuardrailEngine._run_guards`; `viols` is the accumulated
`violations` list.  Returns the validated content or the raised violation,
paired with the names of the guards evaluated (in order). -/
def runGuardsGo {C M : Type} (failFast : Bool) (content : String) (ctx : C) :
    List (Guard C M) → List (BaseViolation M) →
    Except (RunFailure M) String × List String
  | [], viols =>
    if viols.isEmpty then (.ok content, [])
    else
      (.error (.multiple "multiple" (toString viols.length ++ " guard(s) failed")
        viols), [])
  | g :: rest, viols =>
    let r := g.validate content ctx
    if r.passed then
      let res := runGuardsGo failFast content ctx rest viols
      (res.1, g.name :: res.2)
    else
      let msg := r.message.getD "Validation failed"
      if failFast then (.error (.violation g.name msg r.metadata), [g.name])
      else
        let res := runGuardsGo failFast content ctx rest
          (viols ++ [⟨g.name, msg, r.metadata⟩])
        (res.1, g.name :: res.2)

/-- `GuardrailEngine._run_guards` (fresh `violations` accumulator). -/
def runGuards {C M : Type} (cfg : GuardrailConfig) (guards : List (Guard C M))
    (content : String) (ctx : C) : Except (RunFailure M) String × List String :=
  runGuardsGo cfg.fail_fast content ctx guards []

/-- `GuardrailEngine._select_guards`: all registered guards when no names
are given, otherwise the registered guards among the given names, in the
given order, silently skipping unknown names. -/
def selectGuards {C M : Type} (guardDict : List (String × Guard C M))
    (guardNames : Option (List String)) : List (Guard C M) :=
  match guardNames with
  | none => guardDict.map Prod.snd
  | some names => names.filterMap (fun n => mapLookup guardDict n)

/-- A `GuardrailEngine`: its configuration and the three guard registries
(dictionaries keyed by guard name, as built by the `register_*` methods). -/
structure GuardrailEngine (C M : Type) where
  config : GuardrailConfig
  input_guards : List (String × Guard C M)
  output_guards : List (String × Guard C M)
  action_guards : List (String × Guard C M)

/-- `GuardrailEngine.validate_input`. -/
def GuardrailEngine.validate_input {C M : Type} (e : GuardrailEngine C M)
    (content : String) (guardNames : Option (List String)) (ctx : C) :
    Except (RunFailure M) String × List String :=
  runGuards e.config (selectGuards e.input_guards guardNames) content ctx

/-- `GuardrailEngine.validate_output`. -/
def GuardrailEngine.validate_output {C M : Type} (e : GuardrailEngine C M)
    (content : String) (guardNames : Option (List String)) (ctx : C) :
    Except (RunFailure M) String × List String :=
  runGuards e.config (selectGuards e.output_guards guardNames) content ctx

/-- `GuardrailEngine.validate_action`. -/
def GuardrailEngine.validate_action {C M : Type} (e : GuardrailEngine C M)
    (action : String) (guardNames : Option (List String)) (ctx : C) :
    Except (RunFailure M) String × List String :=
  runGuards e.config (selectGuards e.action_guards guardNames) action ctx

/-! ## Session and scoped state (src/manus_machina/session/session.py,
src/manus_machina/state/state.py)

State values are drawn from an arbitrary type `V` standing for the
JSON-serializable Python values accepted by `State.set`; events and
artifacts are opaque.  `datetime.utcnow()` instants are supplied by the
caller as natural numbers. -/

/-- `State.clear_prefix(p)`: drop every binding whose key starts with `p`. -/
def stateDropPre {V : Type} (p : String) (d : List (String × V)) :
    List (String × V) :=
  d.filter (fun kv => !(kv.1.startsWith p))

/-- The `Session` entity's mutable fields relevant to its behavioural
contract. -/
structure Session (V Ev Art : Type) where
  state : List (String × V)
  events : List Ev
  artifacts : List Art
  created_at : Nat
  updated_at : Nat
  is_active : Bool

/-- `Session.add_event`. -/
def Session.add_event {V Ev Art : Type} (s : Session V Ev Art) (e : Ev)
    (now : Nat) : Session V Ev Art :=
  { s with events := s.events ++ [e], updated_at := now }

/-- `Session.add_artifact`. -/
def Session.add_artifact {V Ev Art : Type} (s : Session V Ev Art) (a : Art)
    (now : Nat) : Session V Ev Art :=
  { s with artifacts := s.artifacts ++ [a], updated_at := now }

/-- `Session.set_state`. -/
def Session.set_state {V Ev Art : Type} (s : Session V Ev Art) (key : String)
    (v : V) (now : Nat) : Session V Ev Art :=
  { s with state := mapSet s.state key v, updated_at := now }

/-- `Session.set_user_state` (key prefixed with "user:"). -/
def Session.set_user_state {V Ev Art : Type} (s : Session V Ev Art)
    (key : String) (v : V) (now : Nat) : Session V Ev Art :=
  { s with state := mapSet s.state ("user:" ++ key) v, updated_at := now }

/-- `Session.set_app_state` (key prefixed with "app:"). -/
def Session.set_app_state {V Ev Art : Type} (s : Session V Ev Art)
    (key : String) (v : V) (now : Nat) : Session V Ev Art :=
  { s with state := mapSet s.state ("app:" ++ key) v, updated_at := now }

/-- `Session.set_temp_state` (key prefixed with "temp:"); deliberately does
not touch `updated_at`, so it needs no clock argument. -/
def Session.set_temp_state {V Ev Art : Type} (s : Session V Ev Art)
    (key : String) (v : V) : Session V Ev Art :=
  { s with state := mapSet s.state ("temp:" ++ key) v }

/-- `Session.clear_temp_state`. -/
def Session.clear_temp_state {V Ev Art : Type} (s : Session V Ev Art) :
    Session V Ev Art :=
  { s with state := stateDropPre "temp:" s.state }

/-! ## Workflow (src/manus_machina/orchestration/workflow.py)

Node handlers are modelled as functions from the accumulated state
dictionary to a result value of type `V` (the `AGENT` branch merely applies
the agent's callable to a projection of the same state, which the routing
logic never inspects, so both branches collapse to one function type).
`while` non-termination is modelled with fuel: `none` means "fuel
exhausted". -/

/-- A `Workflow`: its nodes, unconditional edges, registered conditional
routers and entry point. -/
structure Workflow (V : Type) where
  nodes : List (String × (List (String × V) → V))
  edges : List (String × List String)
  conditional_edges : List (String × (List (String × V) → String))
  entry_point : Option String

/-- The router installed by `Workflow.add_conditional_edge`: evaluates the
condition on the current state and looks the resulting key up in the edge
mapping, defaulting to the "__end__" sentinel for unmapped keys. -/
def conditionalRouter {V : Type} (condition : List (String × V) → String)
    (edge_mapping : List (String × String)) : List (String × V) → String :=
  fun state => (mapLookup edge_mapping (condition state)).getD "__end__"

/-- `Workflow.add_conditional_edge`. -/
def Workflow.add_conditional_edge {V : Type} (wf : Workflow V)
    (from_node : String) (condition : List (String × V) → String)
    (edge_mapping : List (String × String)) : Workflow V :=
  { wf with conditional_edges :=
      (mapSet wf.conditional_edges from_node
        (conditionalRouter condition edge_mapping)) }

/-- How `Workflow.execute` ended (apart from running out of fuel). -/
inductive WorkflowResult (V : Type) where
  | ok (finalState : List (String × V))
  | nodeNotFound (name : String)
  | entryNotSet

/-- The state update performed after a node's handler runs: the result is
stored under "last_result" and then under "<node>_result". -/
def wfStep {V : Type} (handler : List (String × V) → V) (current : String)
    (state : List (String × V)) : List (String × V) :=
  let result := handler state
  mapSet (mapSet state "last_result" result) (current ++ "_result") result

/-- The "determine next node" block of `Workflow.execute`: a registered
conditional router takes precedence over unconditional edges; with only
unconditional edges the first registered successor is taken (or "__end__"
for an empty successor list); with neither, "__end__". -/
def wfNext {V : Type} (wf : Workflow V) (current : String)
    (state : List (String × V)) : String :=
  match mapLookup wf.conditional_edges current with
  | some router => router state
  | none =>
    match mapLookup wf.edges current with
    | some nextNodes =>
      match nextNodes with
      | [] => "__end__"
      | n :: _ => n
    | none => "__end__"

/-- The `while current_node != "__end__"` loop of `Workflow.execute`. -/
def wfExecuteGo {V : Type} (wf : Workflow V) :
    Nat → String → List (String × V) → Option (WorkflowResult V)
  | 0, _, _ => none
  | fuel + 1, current, state =>
    if current = "__end__" then some (.ok state)
    else
      match mapLookup wf.nodes current with
      | none => some (.nodeNotFound current)
      | some handler =>
        let state' := wfStep handler current state
        wfExecuteGo wf fuel (wfNext wf current state') state'

/-- `Workflow.execute` (raises if the entry point is unset). -/
def Workflow.execute {V : Type} (wf : Workflow V) (fuel : Nat)
    (initial : List (String × V)) : Option (WorkflowResult V) :=
  match wf.entry_point with
  | none => some .entryNotSet
  | some ep => wfExecuteGo wf fuel ep initial

/-! ## Domain events (src/manus_machina/events.py)

The wire dictionary produced by `DomainEvent.to_dict` keeps each field at a
typed slot.  UUID-to-string (`str(uuid)` / `UUID(s)`) and
datetime-to-ISO-8601 (`isoformat` / `fromisoformat`) conversions are
mutually inverse standard-library bijections on the values the repository
produces, so they are modelled as identity embeddings at the opaque types
`U` (identifiers) and `T` (timestamps at the serialized precision); the
event-type string, the only repository-defined parse, is modelled in full. -/

/-- The closed `EventType` enumeration (24 members). -/
inductive EventType where
  | session_created
  | session_updated
  | session_closed
  | agent_started
  | agent_completed
  | agent_failed
  | task_assigned
  | task_started
  | task_completed
  | task_failed
  | tool_call_started
  | tool_call_completed
  | tool_call_failed
  | state_updated
  | state_cleared
  | artifact_created
  | artifact_updated
  | message_received
  | message_sent
  | llm_request_started
  | llm_request_completed
  | llm_request_failed
  | memory_stored
  | memory_retrieved
deriving DecidableEq, Repr

/-- The `.value` string of each `EventType` member. -/
def eventTypeValue : EventType → String
  | .session_created => "session.created"
  | .session_updated => "session.updated"
  | .session_closed => "session.closed"
  | .agent_started => "agent.started"
  | .agent_completed => "agent.completed"
  | .agent_failed => "agent.failed"
  | .task_assigned => "task.assigned"
  | .task_started => "task.started"
  | .task_completed => "task.completed"
  | .task_failed => "task.failed"
  | .tool_call_started => "tool.call.started"
  | .tool_call_completed => "tool.call.completed"
  | .tool_call_failed => "tool.call.failed"
  | .state_updated => "state.updated"
  | .state_cleared => "state.cleared"
  | .artifact_created => "artifact.created"
  | .artifact_updated => "artifact.updated"
  | .message_received => "message.received"
  | .message_sent => "message.sent"
  | .llm_request_started => "llm.request.started"
  | .llm_request_completed => "llm.request.completed"
  | .llm_request_failed => "llm.request.failed"
  | .memory_stored => "memory.stored"
  | .memory_retrieved => "memory.retrieved"

/-- `EventType(s)`: the enum member whose value is `s`, or `none` when `s`
is outside the closed set (Python raises `ValueError`). -/
def eventTypeFromString (s : String) : Option EventType :=
  if s = "session.created" then some .session_created
  else if s = "session.updated" then some .session_updated
  else if s = "session.closed" then some .session_closed
  else if s = "agent.started" then some .agent_started
  else if s = "agent.completed" then some .agent_completed
  else if s = "agent.failed" then some .agent_failed
  else if s = "task.assigned" then some .task_assigned
  else if s = "task.started" then some .task_started
  else if s = "task.completed" then some .task_completed
  else if s = "task.failed" then some .task_failed
  else if s = "tool.call.started" then some .tool_call_started
  else if s = "tool.call.completed" then some .tool_call_completed
  else if s = "tool.call.failed" then some .tool_call_failed
  else if s = "state.updated" then some .state_updated
  else if s = "state.cleared" then some .state_cleared
  else if s = "artifact.created" then some .artifact_created
  else if s = "artifact.updated" then some .artifact_updated
  else if s = "message.received" then some .message_received
  else if s = "message.sent" then some .message_sent
  else if s = "llm.request.started" then some .llm_request_started
  else if s = "llm.request.completed" then some .llm_request_completed
  else if s = "llm.request.failed" then some .llm_request_failed
  else if s = "memory.stored" then some .memory_stored
  else if s = "memory.retrieved" then some .memory_retrieved
  else none

/-- A `DomainEvent`, over opaque identifier, payload and timestamp types. -/
structure DomainEvent (U D T : Type) where
  id : U
  event_type : EventType
  session_id : Option U
  agent_name : Option String
  data : D
  timestamp : T
  correlation_id : Option U
deriving DecidableEq, Repr

/-- The dictionary produced by `DomainEvent.to_dict` (optional fields are
`None` exactly when absent on the event). -/
structure EventDict (U D T : Type) where
  id : U
  event_type : String
  session_id : Option U
  agent_name : Option String
  data : D
  timestamp : T
  correlation_id : Option U
deriving DecidableEq, Repr

/-- `DomainEvent.to_dict`. -/
def DomainEvent.to_dict {U D T : Type} (e : DomainEvent U D T) :
    EventDict U D T :=
  ⟨e.id, eventTypeValue e.event_type, e.session_id, e.agent_name, e.data,
   e.timestamp, e.correlation_id⟩

/-- `DomainEvent.from_dict`: fails (Python `ValueError`) when the
event-type string is not a member of the closed enumeration. -/
def DomainEvent.from_dict {U D T : Type} (d : EventDict U D T) :
    Option (DomainEvent U D T) :=
  match eventTypeFromString d.event_type with
  | none => none
  | some et =>
    some ⟨d.id, et, d.session_id, d.agent_name, d.data, d.timestamp,
          d.correlation_id⟩

/-! ## Toxicity guard and safety filter
(src/manus_machina/guardrails/guards.py,
src/manus_machina/governance/safety.py)

Python string operations are modelled character-wise: `str.lower` maps
`Char.toLower` (the keyword lists are ASCII), `kw in s` is substring
containment, and `len(s.split())` counts maximal non-whitespace runs.
Scores use exact rationals in place of floats (all arithmetic involved is
exact in binary-free decimal terms: counts, a division, `0.3`-multiples and
a `min`, never accumulated rounding). -/

/-- Python `needle in hay` substring test, on character lists. -/
def isSub (needle hay : List Char) : Bool :=
  hay.tails.any (fun t => needle.isPrefixOf t)

/-- `str.lower()`. -/
def lowerStr (s : String) : String :=
  String.mk (s.data.map Char.toLower)

/-- Helper for `len(s.split())`: counts whitespace-to-word transitions. -/
def wordCountGo : Bool → List Char → Nat
  | _, [] => 0
  | prevInWord, c :: rest =>
    let w := !c.isWhitespace
    (if w ∧ !prevInWord then 1 else 0) + wordCountGo w rest

/-- `len(content.split())`: the number of maximal non-whitespace runs. -/
def wordCount (s : String) : Nat :=
  wordCountGo false s.data

/-- `ToxicityGuard.TOXIC_KEYWORDS`. -/
def TOXIC_KEYWORDS : List String :=
  ["hate", "kill", "violence", "attack", "harm"]

/-- The `toxic_count` sum of `ToxicityGuard.validate`: one per keyword of
the fixed list that occurs in the lower-cased content. -/
def toxicCount (content : String) : Nat :=
  TOXIC_KEYWORDS.countP (fun kw => isSub kw.data (lowerStr content).data)

/-- The `toxicity_score` expression of `ToxicityGuard.validate`:
`toxic_count / len(content.split()) if content else 0`.  `none` models the
`ZeroDivisionError` raised when the content is non-empty (truthy) but
consists only of whitespace, so that `content.split()` is empty. -/
def toxicityScore? (content : String) : Option ℚ :=
  if content = "" then some 0
  else if wordCount content = 0 then none
  else some ((toxicCount content : ℚ) / (wordCount content : ℚ))

/-- `ToxicityGuard.validate` with the configured threshold (default `0.5`);
metadata is the guard's metadata dictionary.  `none` models the escaping
`ZeroDivisionError`. -/
def ToxicityGuard.validate (threshold : ℚ) (content : String) :
    Option (GuardResult (List (String × ℚ))) :=
  match toxicityScore? content with
  | none => none
  | some score =>
    if score > threshold then
      some ⟨false, some "Toxic content detected", [("toxicity_score", score)]⟩
    else some ⟨true, none, []⟩

/-- `SafetyCategory`. -/
inductive SafetyCategory where
  | hate
  | violence
  | sexual
  | dangerous
  | harassment
  | self_harm
deriving DecidableEq, Repr

/-- The category keyword dictionary of `SafetyFilter._check_category`
(`keywords.get(category, [])`: categories without an entry get `[]`). -/
def safetyKeywords : SafetyCategory → List String
  | .hate => ["hate", "racist", "discriminat"]
  | .violence => ["kill", "murder", "attack"]
  | .sexual => ["sexual", "explicit"]
  | .dangerous => ["bomb", "weapon", "poison"]
  | .harassment => []
  | .self_harm => []

/-- `SafetyFilter._check_category`: `min(matches * 0.3, 1.0)` where
`matches` counts the category keywords occurring in the lower-cased
content. -/
def SafetyFilter.checkCategory (content : String) (category : SafetyCategory) :
    ℚ :=
  let nMatches :=
    (safetyKeywords category).countP
      (fun kw => isSub kw.data (lowerStr content).data)
  min ((nMatches : ℚ) * (3 / 10)) 1

/-- Number of occurrences of `needle` in `hay`: the number of start
positions at which `needle` matches. -/
def countOccurrences (needle hay : List Char) : Nat :=
  (hay.tails.filter (fun t => needle.isPrefixOf t)).length

/-- The toxicity score as the spec claim words it, for comparison with the
source-derived `toxicityScore?`: the number of occurrences of the fixed
keywords in the lower-cased content divided by the content's word count. -/
def claimedToxicityScore (content : String) : ℚ :=
  (((TOXIC_KEYWORDS.map
      (fun kw => countOccurrences kw.data (lowerStr content).data)).sum : ℚ)) /
    (wordCount content : ℚ)

/-- The safety per-category score as the spec claim words it, for comparison
with the source-derived `SafetyFilter.checkCategory`: 0.3 per matching
keyword occurrence of that category's keyword list, capped at 1.0. -/
def claimedCategoryScore (content : String) (category : SafetyCategory) : ℚ :=
  min ((((safetyKeywords category).map
      (fun kw => countOccurrences kw.data (lowerStr content).data)).sum : ℚ) *
    (3 / 10)) 1

/-- The corrected toxicity score: one count per distinct listed keyword
occurring as a substring of the lower-cased content (each keyword counted
at most once), divided by the word count. -/
def amendedToxicityScore (content : String) : ℚ :=
  ((TOXIC_KEYWORDS.filter
      (fun kw => isSub kw.data (lowerStr content).data)).length : ℚ) /
    (wordCount content : ℚ)

/-- The corrected safety per-category score: 0.3 per distinct category
keyword occurring as a substring of the lower-cased content (each keyword
counted at most once), capped at 1.0. -/
def amendedCategoryScore (content : String) (category : SafetyCategory) : ℚ :=
  min ((((safetyKeywords category).filter
      (fun kw => isSub kw.data (lowerStr content).data)).length : ℚ) *
    (3 / 10)) 1

/-! ## Helper lemmas -/

/-- Looking a key up after filtering on a key predicate: kept keys look up
as before, dropped keys are gone. -/
theorem mapLookup_filter {V : Type} (q : String → Bool) (d : List (String × V))
    (k : String) :
    mapLookup (d.filter (fun kv => q kv.1)) k =
      if q k then mapLookup d k else none := by
  induction d with
  | nil => simp [mapLookup]
  | cons kv rest ih =>
    obtain ⟨k', v'⟩ := kv
    by_cases hq : q k'
    · by_cases hk : k' = k
      · subst hk
        simp [List.filter_cons, hq, mapLookup]
      · simp [List.filter_cons, hq, mapLookup, hk, ih]
    · by_cases hk : k' = k
      · subst hk
        simp [List.filter_cons, hq, mapLookup, ih]
      · simp [List.filter_cons, hq, mapLookup, hk, ih]

/-- `filterMap` only ever uses the elements on which the function fires. -/
theorem filterMap_filter_isSome {α β : Type} (f : α → Option β) (l : List α) :
    l.filterMap f = (l.filter (fun a => (f a).isSome)).filterMap f := by
  induction l with
  | nil => rfl
  | cons a l ih =>
    cases h : f a <;>
      simp [List.filterMap_cons, List.filter_cons, h, ih]

/-! ## Claim C5: temp-scoped state and the session timestamp -/

/-- Claim C5: on every session, `set_temp_state` leaves `updated_at`
unchanged while `set_state`, `set_user_state`, `set_app_state`, `add_event`
and `add_artifact` all advance it to the current instant (hence strictly
advance it); and `clear_temp_state` removes exactly the keys carrying the
"temp:" prefix, leaving every other key bound to its old value. -/
theorem session_temp_state_frame {V Ev Art : Type} (s : Session V Ev Art)
    (k uk ak : String) (v : V) (e : Ev) (a : Art) (now : Nat)
    (hnow : s.updated_at < now) :
    (s.set_temp_state k v).updated_at = s.updated_at ∧
    (s.set_state k v now).updated_at = now ∧
    (s.set_user_state uk v now).updated_at = now ∧
    (s.set_app_state ak v now).updated_at = now ∧
    (s.add_event e now).updated_at = now ∧
    (s.add_artifact a now).updated_at = now ∧
    s.updated_at < (s.set_state k v now).updated_at ∧
    s.updated_at < (s.add_event e now).updated_at ∧
    (∀ key : String, mapLookup (s.clear_temp_state).state key =
      if key.startsWith "temp:" then none else mapLookup s.state key) := by
  refine ⟨rfl, rfl, rfl, rfl, rfl, rfl, hnow, hnow, fun key => ?_⟩
  show mapLookup (stateDropPre "temp:" s.state) key = _
  rw [stateDropPre, mapLookup_filter (fun k => !(k.startsWith "temp:"))]
  by_cases h : key.startsWith "temp:" <;> simp [h]

/-- Witness for C5 at a concrete session. -/
theorem session_temp_state_frame_witness :
    (5 : Nat) < 6 ∧
    ((((⟨[("temp:x", 1), ("y", 2)], [], [], 0, 5, true⟩ :
        Session Nat Nat Nat).set_temp_state "z" 3).updated_at = 5) ∧
      ((⟨[("temp:x", 1), ("y", 2)], [], [], 0, 5, true⟩ :
        Session Nat Nat Nat).set_state "k" 9 6).updated_at = 6 ∧
      ((⟨[("temp:x", 1), ("y", 2)], [], [], 0, 5, true⟩ :
        Session Nat Nat Nat).set_user_state "u" 9 6).updated_at = 6 ∧
      ((⟨[("temp:x", 1), ("y", 2)], [], [], 0, 5, true⟩ :
        Session Nat Nat Nat).set_app_state "p" 9 6).updated_at = 6 ∧
      ((⟨[("temp:x", 1), ("y", 2)], [], [], 0, 5, true⟩ :
        Session Nat Nat Nat).add_event 4 6).updated_at = 6 ∧
      ((⟨[("temp:x", 1), ("y", 2)], [], [], 0, 5, true⟩ :
        Session Nat Nat Nat).add_artifact 4 6).updated_at = 6 ∧
      (5 : Nat) < ((⟨[("temp:x", 1), ("y", 2)], [], [], 0, 5, true⟩ :
        Session Nat Nat Nat).set_state "k" 9 6).updated_at ∧
      (5 : Nat) < ((⟨[("temp:x", 1), ("y", 2)], [], [], 0, 5, true⟩ :
        Session Nat Nat Nat).add_event 4 6).updated_at ∧
      (∀ key : String,
        mapLookup ((⟨[("temp:x", 1), ("y", 2)], [], [], 0, 5, true⟩ :
          Session Nat Nat Nat).clear_temp_state).state key =
            if key.startsWith "temp:" then none
            else mapLookup [("temp:x", 1), ("y", 2)] key)) :=
  ⟨by decide,
   session_temp_state_frame
     (⟨[("temp:x", 1), ("y", 2)], [], [], 0, 5, true⟩ : Session Nat Nat Nat)
     "k" "u" "p" 9 4 4 6 (by decide)⟩

/-! ## Claim C10: unknown guard names are silently skipped -/

/-- Claim C10: selecting guards by an explicit name list keeps exactly the
registered names (unknown names are skipped without any lookup error), so
the three validate entry points run only the registered subset; naming only
unregistered guards selects nothing and each entry point returns the
content unchanged. -/
theorem select_guards_skip_unregistered {C M : Type} (e : GuardrailEngine C M)
    (names : List String) (content : String) (ctx : C)
    (h : ∀ n ∈ names, mapLookup e.input_guards n = none ∧
      mapLookup e.output_guards n = none ∧ mapLookup e.action_guards n = none) :
    (∀ (d : List (String × Guard C M)),
      selectGuards d (some names) =
        selectGuards d
          (some (names.filter (fun n => (mapLookup d n).isSome)))) ∧
    e.validate_input content (some names) ctx = (.ok content, []) ∧
    e.validate_output content (some names) ctx = (.ok content, []) ∧
    e.validate_action content (some names) ctx = (.ok content, []) := by
  have hsel : ∀ (d : List (String × Guard C M)),
      (∀ n ∈ names, mapLookup d n = none) →
      selectGuards d (some names) = [] := by
    intro d hd
    simp only [selectGuards, List.filterMap_eq_nil_iff]
    exact hd
  refine ⟨fun d => filterMap_filter_isSome (fun n => mapLookup d n) names,
    ?_, ?_, ?_⟩
  · show runGuards e.config (selectGuards e.input_guards (some names))
      content ctx = _
    rw [hsel e.input_guards (fun n hn => (h n hn).1)]
    rfl
  · show runGuards e.config (selectGuards e.output_guards (some names))
      content ctx = _
    rw [hsel e.output_guards (fun n hn => (h n hn).2.1)]
    rfl
  · show runGuards e.config (selectGuards e.action_guards (some names))
      content ctx = _
    rw [hsel e.action_guards (fun n hn => (h n hn).2.2)]
    rfl

/-- Witness for C10: an engine with one registered input guard, validated
with two unregistered names. -/
theorem select_guards_skip_unregistered_witness :
    (∀ n ∈ ["ghost", "phantom"],
      mapLookup (GuardrailEngine.mk ⟨true, true⟩
        [("real", ⟨"real", fun _ _ => ⟨false, none, 0⟩⟩)] [] []
        : GuardrailEngine Unit Nat).input_guards n = none ∧
      mapLookup (GuardrailEngine.mk ⟨true, true⟩
        [("real", ⟨"real", fun _ _ => ⟨false, none, 0⟩⟩)] [] []
        : GuardrailEngine Unit Nat).output_guards n = none ∧
      mapLookup (GuardrailEngine.mk ⟨true, true⟩
        [("real", ⟨"real", fun _ _ => ⟨false, none, 0⟩⟩)] [] []
        : GuardrailEngine Unit Nat).action_guards n = none) ∧
    (GuardrailEngine.mk ⟨true, true⟩
      [("real", ⟨"real", fun _ _ => ⟨false, none, 0⟩⟩)] [] []
      : GuardrailEngine Unit Nat).validate_input "hello"
        (some ["ghost", "phantom"]) () = (.ok "hello", []) :=
  ⟨by intro n hn; fin_cases hn <;> exact ⟨rfl, rfl, rfl⟩,
   (select_guards_skip_unregistered
     (GuardrailEngine.mk ⟨true, true⟩
       [("real", ⟨"real", fun _ _ => ⟨false, none, 0⟩⟩)] [] [])
     ["ghost", "phantom"] "hello" ()
     (by intro n hn; fin_cases hn <;> exact ⟨rfl, rfl, rfl⟩)).2.1⟩

/-! ## Claim C9: totality of the toxicity guard -/

/-- Claim C9 fails on the code: `ToxicityGuard.validate` raises a
`ZeroDivisionError` on a non-empty content consisting solely of whitespace
(here a single space).  The content is truthy, so the guard divides the
keyword count by `len(content.split())`, which is zero; the `if content`
guard protects the empty string only. -/
theorem toxicity_validate_divzero :
    ToxicityGuard.validate (1 / 2) " " = none ∧
    toxicityScore? " " = none ∧
    ToxicityGuard.validate (1 / 2) "" =
      some ⟨true, none, []⟩ := by
  refine ⟨by rfl, by decide, ?_⟩
  have h0 : toxicityScore? "" = some 0 := rfl
  rw [ToxicityGuard.validate, h0]
  norm_num

/-! ## Claim C8: domain event wire round-trip -/

/-- Parsing the serialized value string of every member of the closed
enumeration recovers exactly that member. -/
theorem eventType_value_roundtrip (et : EventType) :
    eventTypeFromString (eventTypeValue et) = some et := by
  cases et <;> rfl

/-- Claim C8: serializing any `DomainEvent` to its wire dictionary and
deserializing reproduces an equal event (same id, event type, optional
session/agent/correlation identifiers, data and timestamp at the serialized
precision), and deserializing any dictionary whose event-type string lies
outside the closed enumeration fails. -/
theorem domain_event_roundtrip {U D T : Type} :
    (∀ e : DomainEvent U D T,
      DomainEvent.from_dict (DomainEvent.to_dict e) = some e) ∧
    (∀ d : EventDict U D T, eventTypeFromString d.event_type = none →
      DomainEvent.from_dict d = none) := by
  constructor
  · intro e
    simp [DomainEvent.to_dict, DomainEvent.from_dict, eventType_value_roundtrip]
  · intro d h
    simp [DomainEvent.from_dict, h]

/-- Witness for C8 at a concrete event and a concrete unrecognized
event-type string. -/
theorem domain_event_roundtrip_witness :
    eventTypeFromString "session.exploded" = none ∧
    DomainEvent.from_dict (DomainEvent.to_dict
      (⟨10, .tool_call_failed, some 11, some "agent-a", 42, 99, none⟩ :
        DomainEvent Nat Nat Nat)) =
      some ⟨10, .tool_call_failed, some 11, some "agent-a", 42, 99, none⟩ ∧
    DomainEvent.from_dict
      (⟨10, "session.exploded", some 11, some "agent-a", 42, 99, none⟩ :
        EventDict Nat Nat Nat) = none :=
  ⟨by rfl,
   (domain_event_roundtrip (U := Nat) (D := Nat) (T := Nat)).1
     ⟨10, .tool_call_failed, some 11, some "agent-a", 42, 99, none⟩,
   (domain_event_roundtrip (U := Nat) (D := Nat) (T := Nat)).2
     ⟨10, "session.exploded", some 11, some "agent-a", 42, 99, none⟩ (by rfl)⟩

/-! ## Claim C6: keyword-density scores -/

/-- Claim C6 fails on the code: the guard counts each listed keyword at
most once (it sums over the keyword list, asking only whether the keyword
occurs), not once per occurrence.  On "kill kill kill" the source score is
1/3 while the claimed occurrence formula gives 3/3 = 1; on
"kill kill kill kill" the source per-category violence score is 0.3 while
the claimed formula gives min(4 x 0.3, 1) = 1. -/
theorem toxicity_occurrence_counterexample :
    toxicityScore? "kill kill kill" = some (1 / 3) ∧
    claimedToxicityScore "kill kill kill" = 1 ∧
    ¬ toxicityScore? "kill kill kill" =
        some (claimedToxicityScore "kill kill kill") ∧
    SafetyFilter.checkCategory "kill kill kill kill" SafetyCategory.violence =
      3 / 10 ∧
    claimedCategoryScore "kill kill kill kill" SafetyCategory.violence = 1 ∧
    ¬ SafetyFilter.checkCategory "kill kill kill kill" SafetyCategory.violence =
        claimedCategoryScore "kill kill kill kill" SafetyCategory.violence := by
  have h1 : toxicCount "kill kill kill" = 1 := by decide
  have h2 : wordCount "kill kill kill" = 3 := by decide
  have h3 : (TOXIC_KEYWORDS.map
      (fun kw => countOccurrences kw.data (lowerStr "kill kill kill").data)).sum
      = 3 := by decide
  have h4 : (safetyKeywords SafetyCategory.violence).countP
      (fun kw => isSub kw.data (lowerStr "kill kill kill kill").data) = 1 := by
    decide
  have h5 : ((safetyKeywords SafetyCategory.violence).map
      (fun kw =>
        countOccurrences kw.data (lowerStr "kill kill kill kill").data)).sum
      = 4 := by decide
  have e1 : toxicityScore? "kill kill kill" = some (1 / 3) := by
    simp only [toxicityScore?, h2]
    rw [h1]
    norm_num
    decide
  have e2 : claimedToxicityScore "kill kill kill" = 1 := by
    rw [claimedToxicityScore, h3, h2]
    norm_num
  have e3 : SafetyFilter.checkCategory "kill kill kill kill"
      SafetyCategory.violence = 3 / 10 := by
    rw [SafetyFilter.checkCategory, h4]
    norm_num
  have e4 : claimedCategoryScore "kill kill kill kill"
      SafetyCategory.violence = 1 := by
    rw [claimedCategoryScore, h5]
    norm_num
  refine ⟨e1, e2, ?_, e3, e4, ?_⟩
  · rw [e1, e2]
    norm_num
  · rw [e3, e4]
    norm_num

/-- Claim C6 (amended): on content that is non-empty and contains at least
one word, the toxicity guard scores the number of distinct listed keywords
occurring in the lower-cased content divided by the word count, failing
exactly when that score strictly exceeds the threshold; and the safety
filter's per-category score is 0.3 per distinct matching category keyword,
capped at 1.0. -/
theorem toxicity_safety_score_amended (content : String) (threshold : ℚ)
    (h1 : content ≠ "") (h2 : wordCount content ≠ 0) :
    ToxicityGuard.validate threshold content =
      (if amendedToxicityScore content > threshold then
        some ⟨false, some "Toxic content detected",
          [("toxicity_score", amendedToxicityScore content)]⟩
      else some ⟨true, none, []⟩) ∧
    ∀ category, SafetyFilter.checkCategory content category =
      amendedCategoryScore content category := by
  have hA : (toxicCount content : ℚ) / (wordCount content : ℚ) =
      amendedToxicityScore content := by
    rw [amendedToxicityScore, toxicCount, List.countP_eq_length_filter]
  have hscore : toxicityScore? content =
      some ((toxicCount content : ℚ) / (wordCount content : ℚ)) := by
    rw [toxicityScore?, if_neg h1, if_neg h2]
  constructor
  · simp only [ToxicityGuard.validate, hscore, hA]
  · intro category
    rw [SafetyFilter.checkCategory, amendedCategoryScore,
      List.countP_eq_length_filter]

/-- Witness for the amended C6 at the content "hate you" with the default
threshold 0.5. -/
theorem toxicity_safety_score_amended_witness :
    ("hate you" ≠ "" ∧ wordCount "hate you" ≠ 0) ∧
    (ToxicityGuard.validate (1 / 2) "hate you" =
      (if amendedToxicityScore "hate you" > 1 / 2 then
        some ⟨false, some "Toxic content detected",
          [("toxicity_score", amendedToxicityScore "hate you")]⟩
      else some ⟨true, none, []⟩) ∧
    ∀ category, SafetyFilter.checkCategory "hate you" category =
      amendedCategoryScore "hate you" category) :=
  ⟨⟨by decide, by decide⟩,
   toxicity_safety_score_amended "hate you" (1 / 2) (by decide) (by decide)⟩

/-! ## Claim C4: fail-fast versus aggregate guard violations -/

/-- When every selected guard passes, `_run_guards` runs them all and
returns the original content unchanged. -/
theorem runGuardsGo_all_pass {C M : Type} (failFast : Bool) (content : String)
    (ctx : C) :
    ∀ (guards : List (Guard C M)),
      (∀ g ∈ guards, (g.validate content ctx).passed = true) →
      runGuardsGo failFast content ctx guards [] =
        (.ok content, guards.map Guard.name) := by
  intro guards
  induction guards with
  | nil => intro _; rfl
  | cons g rest ih =>
    intro h
    have hg : (g.validate content ctx).passed = true := h g (by simp)
    have hrest := ih (fun g' hg' => h g' (by simp [hg']))
    simp [runGuardsGo, hg, hrest]

/-- Claim C4: with two failing guards, fail-fast mode raises the first
guard's violation alone and never evaluates the second guard, while
non-fail-fast mode evaluates both guards and raises one aggregate
violation named "multiple" embedding both individual violations; and
whenever every selected guard passes, the original content is returned
unchanged. -/
theorem guardrail_fail_fast_aggregate {C M : Type} (g1 g2 : Guard C M)
    (content : String) (ctx : C) (cfgFF cfgAll : GuardrailConfig)
    (hFF : cfgFF.fail_fast = true) (hAll : cfgAll.fail_fast = false)
    (h1 : (g1.validate content ctx).passed = false)
    (h2 : (g2.validate content ctx).passed = false) :
    runGuards cfgFF [g1, g2] content ctx =
      (.error (.violation g1.name
          ((g1.validate content ctx).message.getD "Validation failed")
          (g1.validate content ctx).metadata),
        [g1.name]) ∧
    runGuards cfgAll [g1, g2] content ctx =
      (.error (.multiple "multiple" "2 guard(s) failed"
          [⟨g1.name, (g1.validate content ctx).message.getD "Validation failed",
            (g1.validate content ctx).metadata⟩,
           ⟨g2.name, (g2.validate content ctx).message.getD "Validation failed",
            (g2.validate content ctx).metadata⟩]),
        [g1.name, g2.name]) ∧
    (∀ (cfg : GuardrailConfig) (guards : List (Guard C M)),
      (∀ g ∈ guards, (g.validate content ctx).passed = true) →
      runGuards cfg guards content ctx = (.ok content, guards.map Guard.name)) := by
  refine ⟨?_, ?_, ?_⟩
  · rw [runGuards, hFF]
    simp [runGuardsGo, h1]
  · rw [runGuards, hAll]
    simp [runGuardsGo, h1, h2]
    rfl
  · intro cfg guards h
    exact runGuardsGo_all_pass cfg.fail_fast content ctx guards h

/-- Witness for C4: two concrete failing guards and one passing guard. -/
theorem guardrail_fail_fast_aggregate_witness :
    ((GuardResult.passed ((⟨"first", fun _ _ => ⟨false, some "bad one", 7⟩⟩ :
        Guard Unit Nat).validate "text" ()) = false) ∧
      (GuardResult.passed ((⟨"second", fun _ _ => ⟨false, none, 8⟩⟩ :
        Guard Unit Nat).validate "text" ()) = false)) ∧
    runGuards ⟨true, true⟩
        [⟨"first", fun _ _ => ⟨false, some "bad one", 7⟩⟩,
         ⟨"second", fun _ _ => ⟨false, none, 8⟩⟩] "text" () =
      (.error (.violation "first" "bad one" 7), ["first"]) ∧
    runGuards ⟨false, true⟩
        [⟨"first", fun _ _ => ⟨false, some "bad one", 7⟩⟩,
         ⟨"second", fun _ _ => ⟨false, none, 8⟩⟩] "text" () =
      (.error (.multiple "multiple" "2 guard(s) failed"
          [⟨"first", "bad one", 7⟩, ⟨"second", "Validation failed", 8⟩]),
        ["first", "second"]) ∧
    runGuards ⟨true, true⟩
        [(⟨"fine", fun _ _ => ⟨true, none, 9⟩⟩ : Guard Unit Nat)] "text" () =
      (.ok "text", ["fine"]) := by
  have h := guardrail_fail_fast_aggregate
    (⟨"first", fun _ _ => ⟨false, some "bad one", 7⟩⟩ : Guard Unit Nat)
    (⟨"second", fun _ _ => ⟨false, none, 8⟩⟩ : Guard Unit Nat)
    "text" () ⟨true, true⟩ ⟨false, true⟩ rfl rfl rfl rfl
  exact ⟨⟨rfl, rfl⟩, h.1, h.2.1,
    h.2.2 ⟨true, true⟩ [⟨"fine", fun _ _ => ⟨true, none, 9⟩⟩]
      (by intro g hg; fin_cases hg; rfl)⟩

/-! ## Claim C3: retry exhaustion asymmetry -/

/-- When every attempt raises, the loop walks all remaining attempts,
counting one retry per non-final attempt, and ends by raising the
exhaustion error with the final attempt's exception as cause. -/
theorem retryGo_all_error {E V : Type} (m : Nat) (pred : Option (V → Bool))
    (f : Nat → Except E V) (err : Nat → E)
    (hf : ∀ i, f i = .error (err i)) :
    ∀ (fuel attempt : Nat) (lastE : Option E) (r : Nat),
      attempt + fuel = m + 1 → 1 ≤ fuel →
      retryGo m pred f attempt fuel lastE r =
        (.exhausted (some (err m)), r + (fuel - 1)) := by
  intro fuel
  induction fuel with
  | zero => intro attempt lastE r _ h1; omega
  | succ k ih =>
    intro attempt lastE r hsum _
    rcases Nat.eq_zero_or_pos k with hk | hk
    · subst hk
      have ha : attempt = m := by omega
      subst ha
      simp [retryGo, hf attempt]
    · have ha : attempt < m := by omega
      have := ih (attempt + 1) (some (err attempt)) (r + 1) (by omega) hk
      simp only [retryGo, hf attempt, if_pos ha, this]
      congr 1
      omega

/-- When every attempt succeeds but the result predicate flags every
result, the loop consumes every attempt and finally returns the last
result as-is. -/
theorem retryGo_all_flagged {E V : Type} (m : Nat) (p : V → Bool)
    (f : Nat → Except E V) (v : Nat → V)
    (hf : ∀ i, f i = .ok (v i)) (hp : ∀ i, p (v i) = true) :
    ∀ (fuel attempt : Nat) (lastE : Option E) (r : Nat),
      attempt + fuel = m + 1 → 1 ≤ fuel →
      retryGo m (some p) f attempt fuel lastE r =
        (.ok (v m), r + (fuel - 1)) := by
  intro fuel
  induction fuel with
  | zero => intro attempt lastE r _ h1; omega
  | succ k ih =>
    intro attempt lastE r hsum _
    rcases Nat.eq_zero_or_pos k with hk | hk
    · subst hk
      have ha : attempt = m := by omega
      subst ha
      simp [retryGo, hf attempt, hp attempt, Nat.lt_irrefl]
    · have ha : attempt < m := by omega
      have hrec := ih (attempt + 1) lastE (r + 1) (by omega) hk
      rw [retryGo, hf attempt]
      simp only [Option.map_some', Option.getD_some, hp attempt, true_and,
        eq_self_iff_true, ha, if_true, hrec]
      congr 1
      omega

/-- Claim C3: with a result predicate configured, a function raising on
every attempt makes `execute` raise the retry-exhausted error with the
final attempt's exception as cause after `max_attempts` attempts, with a
retry counter of `max_attempts - 1`; a function succeeding on every
attempt with results the predicate always flags makes `execute` return the
last result as-is after the same number of attempts and retries. -/
theorem retry_exhaustion_asymmetry {E V : Type} (m : Nat) (hm : 0 < m)
    (p : V → Bool) (err : Nat → E) (v : Nat → V) (f g : Nat → Except E V)
    (hf : ∀ i, f i = .error (err i)) (hg : ∀ i, g i = .ok (v i))
    (hp : ∀ i, p (v i) = true) :
    RetryPolicy.execute ⟨m, some p⟩ f = (.exhausted (some (err m)), m - 1) ∧
    RetryPolicy.execute ⟨m, some p⟩ g = (.ok (v m), m - 1) := by
  constructor
  · have := retryGo_all_error m (some p) f err hf m 1 none 0 (by omega) hm
    simpa [RetryPolicy.execute] using this
  · have := retryGo_all_flagged m p g v hg hp m 1 none 0 (by omega) hm
    simpa [RetryPolicy.execute] using this

/-- Witness for C3 with `max_attempts = 3`. -/
theorem retry_exhaustion_asymmetry_witness :
    (0 < 3) ∧
    RetryPolicy.execute (⟨3, some (fun _ => true)⟩ : RetryConfig Nat)
        (fun i => (.error (toString i) : Except String Nat)) =
      (.exhausted (some "3"), 2) ∧
    RetryPolicy.execute (⟨3, some (fun _ => true)⟩ : RetryConfig Nat)
        (fun i => (.ok (i * 10) : Except String Nat)) =
      (.ok 30, 2) :=
  ⟨by decide,
   (retry_exhaustion_asymmetry 3 (by decide) (fun _ => true)
     (fun i => toString i) (fun i => i * 10)
     (fun i => .error (toString i)) (fun i => .ok (i * 10))
     (fun _ => rfl) (fun _ => rfl) (fun _ => rfl)).1,
   (retry_exhaustion_asymmetry 3 (by decide) (fun _ => true)
     (fun i => toString i) (fun i => i * 10)
     (fun i => .error (toString i)) (fun i => .ok (i * 10))
     (fun _ => rfl) (fun _ => rfl) (fun _ => rfl)).2⟩

/-! ## Claim C2: circuit breaker state machine -/

/-- Claim C2: with `failure_threshold = 3` and `success_threshold = 2`,
three consecutive failures move a closed breaker (with a clean failure
counter) to open, the first two leaving it closed; while open, a call
before the timeout has elapsed since the last failure is rejected with the
open-circuit result carrying the last-failure time, without invoking the
wrapped function and changing nothing but the call/rejection counters; a
call at or after the timeout invokes the function (transitioning through
half-open, where a success leaves the breaker half-open after one
success); from half-open, two consecutive successes close the breaker, the
first leaving it half-open; and any single failure from half-open reopens
it. -/
theorem circuit_breaker_state_machine {E V : Type} (cfg : CircuitBreakerConfig)
    (hf : cfg.failure_threshold = 3) (hs : cfg.success_threshold = 2) :
    (∀ (s : CircuitBreakerState), s.state = .closed → s.failure_count = 0 →
      ∀ (t1 t2 t3 : ℚ) (e1 e2 e3 : E),
        ((CircuitBreaker.call (V := V) cfg s t1 (.error e1)).1.state = .closed ∧
          (CircuitBreaker.call (V := V) cfg
            (CircuitBreaker.call (V := V) cfg s t1 (.error e1)).1 t2
            (.error e2)).1.state = .closed ∧
          (CircuitBreaker.call (V := V) cfg
            (CircuitBreaker.call (V := V) cfg
              (CircuitBreaker.call (V := V) cfg s t1 (.error e1)).1 t2
              (.error e2)).1 t3 (.error e3)).1.state = .opened)) ∧
    (∀ (s : CircuitBreakerState) (tf now : ℚ) (outcome : Except E V),
      s.state = .opened → s.last_failure_time = some tf →
      now - tf < cfg.timeout_seconds →
      CircuitBreaker.call cfg s now outcome =
        ({ s with total_calls := s.total_calls + 1,
                  total_rejected := s.total_rejected + 1 },
         .rejected (some tf), false)) ∧
    (∀ (s : CircuitBreakerState) (tf now : ℚ) (outcome : Except E V),
      s.state = .opened → s.last_failure_time = some tf →
      now - tf ≥ cfg.timeout_seconds →
      (CircuitBreaker.call cfg s now outcome).2.2 = true ∧
      (∀ v : V, outcome = .ok v →
        (CircuitBreaker.call cfg s now outcome).1.state = .halfOpen)) ∧
    (∀ (s : CircuitBreakerState), s.state = .halfOpen → s.success_count = 0 →
      ∀ (t1 t2 : ℚ) (v1 v2 : V),
        (CircuitBreaker.call (E := E) cfg s t1 (.ok v1)).1.state = .halfOpen ∧
        (CircuitBreaker.call (E := E) cfg
          (CircuitBreaker.call (E := E) cfg s t1 (.ok v1)).1 t2
          (.ok v2)).1.state = .closed) ∧
    (∀ (s : CircuitBreakerState) (now : ℚ) (e : E),
      s.state = .halfOpen →
      (CircuitBreaker.call (V := V) cfg s now (.error e)).1.state = .opened) := by
  refine ⟨?_, ?_, ?_, ?_, ?_⟩
  · intro s hst hfc t1 t2 t3 e1 e2 e3
    simp [CircuitBreaker.call, onFailure, transitionToOpen, transitionToHalfOpen,
      shouldAttemptReset, hst, hfc, hf]
  · intro s tf now outcome hst hlf hlt
    have hnlt : ¬ (now - tf ≥ cfg.timeout_seconds) := not_le.mpr hlt
    simp [CircuitBreaker.call, shouldAttemptReset, hst, hlf, hnlt]
  · intro s tf now outcome hst hlf hge
    constructor
    · cases outcome <;>
        simp [CircuitBreaker.call, shouldAttemptReset, hst, hlf, hge]
    · intro v hv
      subst hv
      simp [CircuitBreaker.call, shouldAttemptReset, hst, hlf, hge, onSuccess,
        transitionToHalfOpen, transitionToClosed, hs]
  · intro s hst hsc t1 t2 v1 v2
    simp [CircuitBreaker.call, onSuccess, transitionToClosed, hst, hsc, hs]
  · intro s now e hst
    simp [CircuitBreaker.call, onFailure, transitionToOpen, hst]

/-- Witness for C2 at a concrete breaker run. -/
theorem circuit_breaker_state_machine_witness :
    ((⟨3, 2, 60⟩ : CircuitBreakerConfig).failure_threshold = 3 ∧
      (⟨3, 2, 60⟩ : CircuitBreakerConfig).success_threshold = 2 ∧
      (⟨.closed, 0, 0, none, 0, 0, 0, 0, 0⟩ : CircuitBreakerState).state =
        .closed ∧
      (⟨.halfOpen, 0, 0, none, 0, 0, 0, 0, 0⟩ : CircuitBreakerState).state =
        .halfOpen) ∧
    ((CircuitBreaker.call (V := Nat) ⟨3, 2, 60⟩
        ⟨.closed, 0, 0, none, 0, 0, 0, 0, 0⟩ 1 (.error "x")).1.state =
        .closed ∧
      (CircuitBreaker.call (V := Nat) ⟨3, 2, 60⟩
        (CircuitBreaker.call (V := Nat) ⟨3, 2, 60⟩
          ⟨.closed, 0, 0, none, 0, 0, 0, 0, 0⟩ 1 (.error "x")).1 2
        (.error "y")).1.state = .closed ∧
      (CircuitBreaker.call (V := Nat) ⟨3, 2, 60⟩
        (CircuitBreaker.call (V := Nat) ⟨3, 2, 60⟩
          (CircuitBreaker.call (V := Nat) ⟨3, 2, 60⟩
            ⟨.closed, 0, 0, none, 0, 0, 0, 0, 0⟩ 1 (.error "x")).1 2
          (.error "y")).1 3 (.error "z")).1.state = .opened) ∧
    (CircuitBreaker.call (V := Nat) ⟨3, 2, 60⟩
      ⟨.halfOpen, 0, 0, none, 0, 0, 0, 0, 0⟩ 5 (.error "w")).1.state =
      .opened :=
  ⟨⟨rfl, rfl, rfl, rfl⟩,
   (circuit_breaker_state_machine (E := String) (V := Nat) ⟨3, 2, 60⟩ rfl
     rfl).1 ⟨.closed, 0, 0, none, 0, 0, 0, 0, 0⟩ rfl rfl 1 2 3 "x" "y" "z",
   (circuit_breaker_state_machine (E := String) (V := Nat) ⟨3, 2, 60⟩ rfl
     rfl).2.2.2.2 ⟨.halfOpen, 0, 0, none, 0, 0, 0, 0, 0⟩ 5 "w" rfl⟩

/-! ## Claim C7: workflow next-node selection -/

/-- Claim C7: at any executing node, a registered conditional router decides
the next node with precedence over any unconditional edges; a conditional
router whose condition produces a key absent from its edge mapping sends
the walk to the "__end__" sentinel, so execution terminates normally with
the accumulated state rather than raising; a node with neither a router
nor edges terminates the walk the same way; and a node with several
unconditional successors follows only the first registered one. -/
theorem workflow_routing {V : Type} (wf : Workflow V) (fuel : Nat)
    (current : String) (state : List (String × V))
    (handler : List (String × V) → V)
    (h0 : ¬ current = "__end__")
    (h1 : mapLookup wf.nodes current = some handler) :
    (∀ router, mapLookup wf.conditional_edges current = some router →
      wfExecuteGo wf (fuel + 1) current state =
        wfExecuteGo wf fuel (router (wfStep handler current state))
          (wfStep handler current state)) ∧
    (∀ (condition : List (String × V) → String)
        (mapping : List (String × String)),
      mapLookup wf.conditional_edges current =
          some (conditionalRouter condition mapping) →
      mapLookup mapping (condition (wfStep handler current state)) = none →
      wfExecuteGo wf (fuel + 2) current state =
        some (.ok (wfStep handler current state))) ∧
    (mapLookup wf.conditional_edges current = none →
      mapLookup wf.edges current = none →
      wfExecuteGo wf (fuel + 2) current state =
        some (.ok (wfStep handler current state))) ∧
    (∀ (n1 : String) (ns : List String),
      mapLookup wf.conditional_edges current = none →
      mapLookup wf.edges current = some (n1 :: ns) →
      wfExecuteGo wf (fuel + 1) current state =
        wfExecuteGo wf fuel n1 (wfStep handler current state)) := by
  refine ⟨?_, ?_, ?_, ?_⟩
  · intro router hr
    simp [wfExecuteGo, h0, h1, wfNext, hr]
  · intro condition mapping hr hm
    have : wfNext wf current (wfStep handler current state) = "__end__" := by
      simp [wfNext, hr, conditionalRouter, hm]
    show wfExecuteGo wf (fuel + 1 + 1) current state = _
    simp [wfExecuteGo, h0, h1, this]
  · intro hc he
    have : wfNext wf current (wfStep handler current state) = "__end__" := by
      simp [wfNext, hc, he]
    show wfExecuteGo wf (fuel + 1 + 1) current state = _
    simp [wfExecuteGo, h0, h1, this]
  · intro n1 ns hc he
    have : wfNext wf current (wfStep handler current state) = n1 := by
      simp [wfNext, hc, he]
    simp [wfExecuteGo, h0, h1, this]

/-- Witness for C7: a one-node workflow whose conditional router's condition
returns an unmapped key, so the walk terminates normally. -/
theorem workflow_routing_witness :
    (¬ "a" = "__end__" ∧
      mapLookup (Workflow.mk
        [("a", fun _ => (7 : Nat))] [("a", ["b"])]
        [("a", conditionalRouter (fun _ => "missing") [("x", "b")])]
        (some "a")).nodes "a" = some (fun _ => (7 : Nat)) ∧
      mapLookup (Workflow.mk
        [("a", fun _ => (7 : Nat))] [("a", ["b"])]
        [("a", conditionalRouter (fun _ => "missing") [("x", "b")])]
        (some "a")).conditional_edges "a" =
        some (conditionalRouter (fun _ => "missing") [("x", "b")]) ∧
      mapLookup [("x", "b")]
        ((fun _ => "missing")
          (wfStep (fun _ => (7 : Nat)) "a" [("task", 0)])) = none) ∧
    wfExecuteGo (Workflow.mk
        [("a", fun _ => (7 : Nat))] [("a", ["b"])]
        [("a", conditionalRouter (fun _ => "missing") [("x", "b")])]
        (some "a")) 3 "a" [("task", 0)] =
      some (.ok (wfStep (fun _ => (7 : Nat)) "a" [("task", 0)])) :=
  ⟨⟨by decide, rfl, rfl, rfl⟩,
   (workflow_routing (Workflow.mk
       [("a", fun _ => (7 : Nat))] [("a", ["b"])]
       [("a", conditionalRouter (fun _ => "missing") [("x", "b")])]
       (some "a")) 1 "a" [("task", 0)] (fun _ => (7 : Nat))
     (by decide) rfl).2.1 (fun _ => "missing") [("x", "b")] rfl rfl⟩

/-! ## Claim C1: saga compensation protocol -/

/-- Running the step loop over a prefix whose actions all succeed reaches
the remaining steps with all prefix steps recorded as completed (in
reverse), under some evolved context and last result. -/
theorem sagaExecuteGo_append {E V : Type} :
    ∀ (pre : List (SagaStep E V)),
      (∀ s ∈ pre, ∀ ctx, ∃ v, s.action ctx = Except.ok v) →
      ∀ (l : List (SagaStep E V)) (ctx : SagaCtx V)
        (comp : List (SagaStep E V)) (lr : Option V),
        ∃ (ctx' : SagaCtx V) (lr' : Option V),
          sagaExecuteGo ctx comp lr (pre ++ l) =
            sagaExecuteGo ctx' (pre.reverse ++ comp) lr' l := by
  intro pre
  induction pre with
  | nil => intro _ l ctx comp lr; exact ⟨ctx, lr, by simp⟩
  | cons s pre' ih =>
    intro hpre l ctx comp lr
    obtain ⟨v, hv⟩ := hpre s (by simp) ctx
    obtain ⟨ctx', lr', h⟩ := ih (fun s' hs' c => hpre s' (by simp [hs']) c) l
      (ctxSet ctx (s.name ++ "_result") v) (s :: comp) (some v)
    refine ⟨ctx', lr', ?_⟩
    have hstep : sagaExecuteGo ctx comp lr ((s :: pre') ++ l) =
        sagaExecuteGo (ctxSet ctx (s.name ++ "_result") v) (s :: comp)
          (some v) (pre' ++ l) := by
      simp only [List.cons_append, sagaExecuteGo, hv]
      rfl
    rw [hstep, h, List.reverse_cons, List.append_assoc, List.singleton_append]

/-- The reverse compensation walk over steps whose compensations all
succeed invokes every one of them in list order and reports no failure. -/
theorem sagaCompensate_all_ok {E V : Type} (ctx : SagaCtx V) :
    ∀ (l : List (SagaStep E V)),
      (∀ s ∈ l, ∀ c, s.compensation c = Except.ok ()) →
      sagaCompensate ctx l = (l.map SagaStep.name, none) := by
  intro l
  induction l with
  | nil => intro _; rfl
  | cons s rest ih =>
    intro h
    have hs := h s (by simp) ctx
    have hr := ih (fun s' hs' c => h s' (by simp [hs']) c)
    simp [sagaCompensate, hs, hr]

/-- The reverse compensation walk stops at the first failing compensation:
the steps before it are compensated in order, it is invoked and reported,
and the steps after it are never reached. -/
theorem sagaCompensate_first_fail {E V : Type} (ctx : SagaCtx V)
    (b : SagaStep E V) (ce : E)
    (hb : ∀ c, b.compensation c = Except.error ce) :
    ∀ (cs rest : List (SagaStep E V)),
      (∀ s ∈ cs, ∀ c, s.compensation c = Except.ok ()) →
      sagaCompensate ctx (cs ++ b :: rest) =
        (cs.map SagaStep.name ++ [b.name], some (b.name, ce)) := by
  intro cs
  induction cs with
  | nil => intro rest _; simp [sagaCompensate, hb ctx]
  | cons s cs' ih =>
    intro rest h
    have hs := h s (by simp) ctx
    have hr := ih rest (fun s' hs' c => h s' (by simp [hs']) c)
    simp [sagaCompensate, hs, hr]

/-- Claim C1: when every step before the failing one succeeds and the
failing step's action always raises, `Saga.execute` invokes the
compensation of every previously completed step and only of those, in
strict reverse completion order (never the failed step's own); when every
such compensation succeeds the saga status ends "compensated" and the
outcome is the Saga-failed error wrapping the original exception; when
some compensation raises, the walk stops there, the earlier steps'
compensations are never invoked, and the outcome is the distinct
Saga-compensation error. -/
theorem saga_compensation_protocol {E V : Type} (pre : List (SagaStep E V))
    (fs : SagaStep E V) (rest : List (SagaStep E V)) (e : E) (ctx0 : SagaCtx V)
    (hpre : ∀ s ∈ pre, ∀ ctx, ∃ v, s.action ctx = Except.ok v)
    (hfail : ∀ ctx, fs.action ctx = Except.error e) :
    ((∀ s ∈ pre, ∀ ctx, s.compensation ctx = Except.ok ()) →
      (Saga.execute (pre ++ fs :: rest) ctx0).compTrace =
          (pre.map SagaStep.name).reverse ∧
      (Saga.execute (pre ++ fs :: rest) ctx0).status = .compensated ∧
      (Saga.execute (pre ++ fs :: rest) ctx0).outcome =
        .sagaFailed fs.name e) ∧
    (∀ (a : List (SagaStep E V)) (b : SagaStep E V) (c : List (SagaStep E V))
        (ce : E), pre = a ++ b :: c →
      (∀ s ∈ c, ∀ ctx, s.compensation ctx = Except.ok ()) →
      (∀ ctx, b.compensation ctx = Except.error ce) →
      (Saga.execute (pre ++ fs :: rest) ctx0).compTrace =
          (c.map SagaStep.name).reverse ++ [b.name] ∧
      (Saga.execute (pre ++ fs :: rest) ctx0).status = .failed ∧
      (Saga.execute (pre ++ fs :: rest) ctx0).outcome =
          .compensationFailed b.name ce) := by
  obtain ⟨ctx', lr', hGo⟩ :=
    sagaExecuteGo_append pre hpre (fs :: rest) ctx0 [] none
  rw [List.append_nil] at hGo
  have hexec : Saga.execute (pre ++ fs :: rest) ctx0 =
      sagaExecuteGo ctx' pre.reverse lr' (fs :: rest) := hGo
  constructor
  · intro hcomp
    have hall : ∀ s ∈ pre.reverse, ∀ c, s.compensation c = Except.ok () := by
      intro s hs c
      exact hcomp s (List.mem_reverse.mp hs) c
    have hcompEq := sagaCompensate_all_ok ctx' pre.reverse hall
    rw [hexec]
    simp [sagaExecuteGo, hfail ctx', hcompEq]
  · intro a b c ce hsplit hc hb
    have hrev : pre.reverse = c.reverse ++ b :: a.reverse := by
      rw [hsplit]
      simp
    have hall : ∀ s ∈ c.reverse, ∀ cx, s.compensation cx = Except.ok () := by
      intro s hs cx
      exact hc s (List.mem_reverse.mp hs) cx
    have hcompEq :=
      sagaCompensate_first_fail ctx' b ce hb c.reverse a.reverse hall
    rw [hexec]
    simp [sagaExecuteGo, hfail ctx', hrev, hcompEq]

/-- Witness for C1: a three-step saga failing at its last step, with
compensations all succeeding (first part) and with the second step's
compensation failing (second part). -/
theorem saga_compensation_protocol_witness :
    (Saga.execute
        ([(⟨"A", fun _ => .ok 1, fun _ => .ok ()⟩ : SagaStep String Nat),
          ⟨"B", fun _ => .ok 2, fun _ => .ok ()⟩] ++
          (⟨"C", fun _ => .error "boom", fun _ => .ok ()⟩ :
            SagaStep String Nat) :: []) (fun _ => none)).compTrace =
      ["B", "A"] ∧
    (Saga.execute
        ([(⟨"A", fun _ => .ok 1, fun _ => .ok ()⟩ : SagaStep String Nat),
          ⟨"B", fun _ => .ok 2, fun _ => .ok ()⟩] ++
          (⟨"C", fun _ => .error "boom", fun _ => .ok ()⟩ :
            SagaStep String Nat) :: []) (fun _ => none)).status =
      .compensated ∧
    (Saga.execute
        ([(⟨"A", fun _ => .ok 1, fun _ => .ok ()⟩ : SagaStep String Nat),
          ⟨"B", fun _ => .ok 2, fun _ => .ok ()⟩] ++
          (⟨"C", fun _ => .error "boom", fun _ => .ok ()⟩ :
            SagaStep String Nat) :: []) (fun _ => none)).outcome =
      .sagaFailed "C" "boom" ∧
    (Saga.execute
        ([(⟨"A", fun _ => .ok 1, fun _ => .ok ()⟩ : SagaStep String Nat),
          ⟨"B", fun _ => .ok 2, fun _ => .error "cboom"⟩] ++
          (⟨"C", fun _ => .error "boom", fun _ => .ok ()⟩ :
            SagaStep String Nat) :: []) (fun _ => none)).compTrace =
      ["B"] ∧
    (Saga.execute
        ([(⟨"A", fun _ => .ok 1, fun _ => .ok ()⟩ : SagaStep String Nat),
          ⟨"B", fun _ => .ok 2, fun _ => .error "cboom"⟩] ++
          (⟨"C", fun _ => .error "boom", fun _ => .ok ()⟩ :
            SagaStep String Nat) :: []) (fun _ => none)).outcome =
      .compensationFailed "B" "cboom" := by
  have h1 := (saga_compensation_protocol
      [(⟨"A", fun _ => .ok 1, fun _ => .ok ()⟩ : SagaStep String Nat),
       ⟨"B", fun _ => .ok 2, fun _ => .ok ()⟩]
      ⟨"C", fun _ => .error "boom", fun _ => .ok ()⟩ [] "boom" (fun _ => none)
      (by intro s hs ctx; fin_cases hs <;> exact ⟨_, rfl⟩)
      (fun _ => rfl)).1
    (by intro s hs ctx; fin_cases hs <;> rfl)
  have h2 := (saga_compensation_protocol
      [(⟨"A", fun _ => .ok 1, fun _ => .ok ()⟩ : SagaStep String Nat),
       ⟨"B", fun _ => .ok 2, fun _ => .error "cboom"⟩]
      ⟨"C", fun _ => .error "boom", fun _ => .ok ()⟩ [] "boom" (fun _ => none)
      (by intro s hs ctx; fin_cases hs <;> exact ⟨_, rfl⟩)
      (fun _ => rfl)).2
    [⟨"A", fun _ => .ok 1, fun _ => .ok ()⟩]
    ⟨"B", fun _ => .ok 2, fun _ => .error "cboom"⟩ [] "cboom" rfl
    (by intro s hs ctx; simp at hs) (fun _ => rfl)
  exact ⟨h1.1, h1.2.1, h1.2.2, h2.1, h2.2.2⟩
